import Mathlib

/-!
Shallow embedding of `word_to_markdown.py` (a batch Word→Markdown converter
driving an external `pandoc` subprocess), together with proofs of the
claims of the specification about it.

The interaction of the program with its environment (the filesystem and the
subprocesses it spawns) is modelled by explicit environment data:
* `ProbeOutcome` — what happens when `subprocess.run` on the version probe command
  is invoked in `check_pandoc`;
* `ConvEnv` — what happens for one input file in `convert_file`: the outcome
  of the pandoc subprocess, and whether/how large the derived output file is
  after the subprocess ran;
* `Dir` — the input directory: whether it exists and the names directly
  under it, in directory-iteration order.

Python exceptions are modelled with `Except`: a function that can raise an
uncaught exception returns `Except PyExc α`.
-/

/-- A Python exception escaping a modelled function. -/
inductive PyExc where
  | indexError
  | other (msg : String)
deriving DecidableEq

/-- Outcome of the `pandoc --version` probe in `check_pandoc`:
the process completes with a return code and captured stdout, or
`subprocess.run` raises `FileNotFoundError` (binary missing), or
`subprocess.TimeoutExpired` (5-second bound), or some other exception
(e.g. `PermissionError` when the binary is present but not executable). -/
inductive ProbeOutcome where
  | completed (returncode : Int) (stdout : String)
  | fileNotFound
  | timedOut
  | raised (msg : String)
deriving DecidableEq

/-- Outcome of the per-file pandoc subprocess in `convert_file`:
completion with a return code and captured stderr, `TimeoutExpired`
(60-second bound), or any other exception `e` (caught by
`except Exception`), carrying `str(e)`. -/
inductive RunOutcome where
  | completed (returncode : Int) (stderr : String)
  | timedOut
  | raised (msg : String)
deriving DecidableEq

/-- Environment for one `convert_file` call: the subprocess outcome, and the
state of the derived output file after the subprocess ran (`exists()` and
`stat().st_size`). -/
structure ConvEnv where
  run : RunOutcome
  outExists : Bool
  outSize : Nat

/-- The input directory as seen by `find_word_files`: whether
`input_dir.exists()`, and the names directly under it in the order the
filesystem yields them (subdirectory contents are not part of a directory
listing, so recursion into subdirectories is not expressible here, matching
the non-recursive `glob`). -/
structure Dir where
  exists_ : Bool
  entries : List String

/-- Python `str.strip()` (with the Lean ASCII whitespace predicate standing in
for the Python whitespace class): drop leading and trailing whitespace. -/
def pyStrip (s : String) : String :=
  ⟨((s.data.dropWhile Char.isWhitespace).reverse.dropWhile Char.isWhitespace).reverse⟩

/-- Python `str.split()` with no separator: split on runs of whitespace,
discarding empty pieces. The first argument accumulates the current word
in reverse. -/
def pySplitAux : List Char → List Char → List String
  | acc, [] => if acc.isEmpty then [] else [⟨acc.reverse⟩]
  | acc, c :: rest =>
    if c.isWhitespace then
      if acc.isEmpty then pySplitAux [] rest
      else ⟨acc.reverse⟩ :: pySplitAux [] rest
    else pySplitAux (c :: acc) rest

/-- Python `str.split()` on a string. -/
def pySplit (s : String) : List String :=
  pySplitAux [] s.data

/-- Index of the last dot in a character list (Python rfind of the dot
character, as an `Option` instead of `-1`). -/
def rfindDot : List Char → Option Nat
  | [] => none
  | c :: rest =>
    match rfindDot rest with
    | some i => some (i + 1)
    | none => if c = '.' then some 0 else none

/-- `pathlib.PurePath.stem` on a file name: the name without its last
suffix. Python: with i the index of the last dot, the stem is the part
before index i when 0 < i < len(name)-1, and the whole name otherwise. -/
def pyStem (name : String) : String :=
  let cs := name.data
  match rfindDot cs with
  | some i => if 0 < i ∧ i < cs.length - 1 then ⟨cs.take i⟩ else name
  | none => name

/-- fnmatch-style matching of a glob pattern against a name, as used by
`pathlib.Path.glob` for a single path component: `*` matches any (possibly
empty) run of characters, `?` matches any single character, anything else
matches itself. (The source pattern `*.docx` uses no character classes.) -/
def globMatchAux : List Char → List Char → Bool
  | [], s => s.isEmpty
  | c :: ps, s =>
    if c = '*' then
      s.tails.any (fun t => globMatchAux ps t)
    else
      match s with
      | [] => false
      | d :: cs => (c == '?' || c == d) && globMatchAux ps cs

/-- `Word2Markdown.check_pandoc`: run the version probe command with a
5-second timeout; on return code 0, print the second whitespace-separated
token of stdout (raising `IndexError` if there is none) and return `True`;
`FileNotFoundError` and `TimeoutExpired` are caught and fall through to
`return False`; any other exception propagates. -/
def check_pandoc (p : ProbeOutcome) : Except PyExc Bool :=
  match p with
  | ProbeOutcome.completed rc stdout =>
    if rc = 0 then
      if 2 ≤ (pySplit stdout).length then Except.ok true
      else Except.error PyExc.indexError
    else Except.ok false
  | ProbeOutcome.fileNotFound => Except.ok false
  | ProbeOutcome.timedOut => Except.ok false
  | ProbeOutcome.raised m => Except.error (PyExc.other m)

/-- `Word2Markdown.find_word_files`: return `[]` if the input directory does
not exist, else the entries directly under it matching `glob("*.docx")`,
in directory order. -/
def find_word_files (d : Dir) : List String :=
  if d.exists_ = false then []
  else d.entries.filter (fun name => globMatchAux "*.docx".data name.data)

/-- `Word2Markdown.convert_file` for one input file name, given the
environment for this conversion attempt. Returns `(success, message)`.
The derived output name is `stem + ".md"`. On completion with return code 0
the output file is checked for existence and positive size; on non-zero
return code the stripped stderr (or `"未知错误"` when stderr is the empty
string) is embedded in the failure message; `TimeoutExpired` and any other
exception are caught and turned into failure messages. -/
def convert_file (env : ConvEnv) (wordName : String) : Bool × String :=
  let mdName := pyStem wordName ++ ".md"
  match env.run with
  | RunOutcome.completed rc stderr =>
    if rc = 0 then
      if env.outExists = true ∧ 0 < env.outSize then
        (true, "转换成功: " ++ mdName)
      else
        (false, "输出文件为空: " ++ mdName)
    else
      let error_msg := if stderr ≠ "" then pyStrip stderr else "未知错误"
      (false, "转换失败: " ++ error_msg)
  | RunOutcome.timedOut => (false, "转换超时（60秒）")
  | RunOutcome.raised m => (false, "转换异常: " ++ m)

/-- Accumulator of the `convert_all` loop. -/
structure LoopState where
  success_count : Nat
  fail_count : Nat
  errors : List String
deriving DecidableEq

/-- One iteration of the `convert_all` loop body on file `w`. -/
def convert_step (fenv : String → ConvEnv) (st : LoopState) (w : String) : LoopState :=
  let r := convert_file (fenv w) w
  if r.1 = true then
    { st with success_count := st.success_count + 1 }
  else
    { st with fail_count := st.fail_count + 1,
              errors := st.errors ++ [w ++ ": " ++ r.2] }

/-- `Word2Markdown.convert_all`: discover the input files; if none, return
`(0, 0, [])`; otherwise run `convert_file` on each in order, counting
successes and failures and collecting `"<filename>: <message>"` entries
for failures. `fenv` gives the per-file conversion environment. -/
def convert_all (d : Dir) (fenv : String → ConvEnv) : Nat × Nat × List String :=
  let word_files := find_word_files d
  if word_files.isEmpty then (0, 0, [])
  else
    let st := word_files.foldl (convert_step fenv) ⟨0, 0, []⟩
    (st.success_count, st.fail_count, st.errors)

/-- Externally visible effects of one program run, in order. -/
inductive Event where
  | mkdirOutput (parents exist_ok : Bool)
  | probePandoc
  | discover
  | convert (file : String)
deriving DecidableEq

/-- Environment for a whole `main` run. -/
structure MainEnv where
  probe : ProbeOutcome
  checkFlag : Bool
  dir : Dir
  fileEnv : String → ConvEnv

/-- `main`: construct `Word2Markdown` (whose `__init__` runs
`output_dir.mkdir(parents=True, exist_ok=True)`), probe pandoc, and either
exit 1 (probe returned `False`, via `sys.exit(1)`; or the probe raised an
uncaught exception, which makes the interpreter exit with status 1), exit 0
after listing files in `--check` mode, or run `convert_all` and exit 0
exactly when the failure count is 0. Returns the exit code and the ordered
trace of effects. -/
def mainRun (e : MainEnv) : Nat × List Event :=
  let tr0 := [Event.mkdirOutput true true, Event.probePandoc]
  match check_pandoc e.probe with
  | Except.error _ => (1, tr0)
  | Except.ok false => (1, tr0)
  | Except.ok true =>
    if e.checkFlag then (0, tr0 ++ [Event.discover])
    else
      let r := convert_all e.dir e.fileEnv
      (if r.2.1 = 0 then 0 else 1,
       tr0 ++ [Event.discover] ++ (find_word_files e.dir).map Event.convert)

/-- Spec-side predicate for claim C6 ("names match the fixed extension
`.docx` with a case-sensitive match"): the name ends with `.docx`. -/
def spec_matches_docx (name : String) : Bool :=
  List.isSuffixOf ".docx".data name.data

/-- `leadsWith p s`: the character list `p` is an initial segment of `s`. -/
def leadsWith : List Char → List Char → Bool
  | [], _ => true
  | _ :: _, [] => false
  | a :: as, b :: bs => a == b && leadsWith as bs

/-- `listContainsSub s sub`: `sub` occurs contiguously inside `s`. -/
def listContainsSub (s sub : List Char) : Bool :=
  if leadsWith sub s then true
  else
    match s with
    | [] => false
    | _ :: t => listContainsSub t sub

/-- `strContainsSub s sub`: the string `sub` occurs contiguously in `s`. -/
def strContainsSub (s sub : String) : Bool :=
  listContainsSub s.data sub.data

/-- The failure entry recorded for file `w` when its conversion fails
in the source the loop appends the f-string of name and message, as a `filterMap` step here. -/
def failEntry (fenv : String → ConvEnv) (w : String) : Option String :=
  if (convert_file (fenv w) w).1 = true then none
  else some (w ++ ": " ++ (convert_file (fenv w) w).2)

/-- A wildcard-free pattern matches exactly itself. -/
theorem globMatchAux_lit (p : List Char) (hstar : '*' ∉ p) (hq : '?' ∉ p) :
    ∀ s, (globMatchAux p s = true ↔ p = s) := by
  induction p with
  | nil =>
    intro s; cases s <;> simp [globMatchAux]
  | cons c ps ih =>
    intro s
    have hc : ¬c = '*' := fun h => hstar (by simp [h])
    have hc2 : ¬c = '?' := fun h => hq (by simp [h])
    have hs : '*' ∉ ps := fun h => hstar (List.mem_cons_of_mem _ h)
    have hq2 : '?' ∉ ps := fun h => hq (List.mem_cons_of_mem _ h)
    cases s with
    | nil =>
      rw [globMatchAux, if_neg hc]
      simp
    | cons d cs =>
      rw [globMatchAux, if_neg hc]
      simp [hc2, ih hs hq2 cs]

/-- A pattern `*lit` with wildcard-free `lit` matches exactly the lists with
suffix `lit`. -/
theorem globMatchAux_star (p : List Char) (hstar : '*' ∉ p) (hq : '?' ∉ p)
    (s : List Char) : (globMatchAux ('*' :: p) s = true ↔ p <:+ s) := by
  have hu : globMatchAux ('*' :: p) s = s.tails.any (fun t => globMatchAux p t) := by
    simp [globMatchAux]
  rw [hu, List.any_eq_true]
  constructor
  · rintro ⟨t, ht, hm⟩
    exact (globMatchAux_lit p hstar hq t).mp hm ▸ (List.mem_tails _ _).mp ht
  · intro h
    exact ⟨p, (List.mem_tails _ _).mpr h, (globMatchAux_lit p hstar hq p).mpr rfl⟩

/-- The glob pattern of the source, `*.docx`, matches a name exactly when the
name ends with `.docx` (case-sensitively). -/
theorem glob_docx_eq_spec (x : String) :
    globMatchAux "*.docx".data x.data = spec_matches_docx x := by
  have e : "*.docx".data = '*' :: ".docx".data := by decide
  rw [e, ← Bool.coe_iff_coe]
  rw [globMatchAux_star ".docx".data (by decide) (by decide) x.data]
  simp [spec_matches_docx]

/-- On an existing directory, discovery filters the directory listing by the
`.docx` suffix. -/
theorem find_word_files_eq_filter (d : Dir) (h : d.exists_ = true) :
    find_word_files d = d.entries.filter spec_matches_docx := by
  unfold find_word_files
  rw [h]
  simp only [Bool.true_eq_false, if_false]
  exact List.filter_congr (fun x _ => glob_docx_eq_spec x)

/-- Closed form of the `convert_all` loop: starting from any accumulator, the
fold adds the number of successful files to `success_count`, the number of
failed files to `fail_count`, and appends one `"<filename>: <message>"`
entry per failed file, in processing order. -/
theorem foldl_convert_step (fenv : String → ConvEnv) (ws : List String)
    (st : LoopState) :
    ws.foldl (convert_step fenv) st =
      ⟨st.success_count + ws.countP (fun w => (convert_file (fenv w) w).1),
       st.fail_count + ws.countP (fun w => !(convert_file (fenv w) w).1),
       st.errors ++ ws.filterMap (failEntry fenv)⟩ := by
  induction ws generalizing st with
  | nil => simp
  | cons w rest ih =>
    rw [List.foldl_cons, ih]
    unfold convert_step failEntry
    by_cases h : (convert_file (fenv w) w).1 = true
    · simp [h, List.countP_cons, LoopState.mk.injEq]
      omega
    · simp [h, List.countP_cons, LoopState.mk.injEq]
      omega

/-- Counting a predicate and its negation partitions a list. -/
theorem countP_add_countP_not (p : String → Bool) (l : List String) :
    l.countP p + l.countP (fun a => !p a) = l.length := by
  induction l with
  | nil => simp
  | cons a t ih =>
    by_cases h : p a = true <;>
      simp [List.countP_cons, h, ← ih] <;> omega

/-- `convert_all`, in closed form, for any environment. -/
theorem convert_all_eq (d : Dir) (fenv : String → ConvEnv) :
    convert_all d fenv =
      ((find_word_files d).countP (fun w => (convert_file (fenv w) w).1),
       (find_word_files d).countP (fun w => !(convert_file (fenv w) w).1),
       (find_word_files d).filterMap (failEntry fenv)) := by
  unfold convert_all
  by_cases h : (find_word_files d).isEmpty = true
  · rw [List.isEmpty_iff] at h
    simp [h]
  · simp only [h, if_false, foldl_convert_step]
    simp

/-- A list is an initial segment of itself followed by anything. -/
theorem leadsWith_append (p q : List Char) : leadsWith p (p ++ q) = true := by
  induction p with
  | nil => rfl
  | cons a as ih => simp [leadsWith, ih]

/-- A list whose initial segment is `sub` contains `sub`. -/
theorem listContainsSub_of_lead (s sub : List Char) (h : leadsWith sub s = true) :
    listContainsSub s sub = true := by
  unfold listContainsSub
  simp [h]

/-- A concatenation contains its right part. -/
theorem listContainsSub_append_right (x y : List Char) :
    listContainsSub (x ++ y) y = true := by
  induction x with
  | nil =>
    exact listContainsSub_of_lead y y (by simpa using leadsWith_append y [])
  | cons a as ih =>
    rw [List.cons_append]
    unfold listContainsSub
    by_cases h : leadsWith y (a :: (as ++ y)) = true
    · simp [h]
    · simp [h, ih]

/-- A string concatenation contains its right part. -/
theorem strContainsSub_append_right (a b : String) :
    strContainsSub (a ++ b) b = true := by
  unfold strContainsSub
  rw [String.data_append]
  exact listContainsSub_append_right a.data b.data

/-- A string concatenation contains its left part. -/
theorem strContainsSub_append_left (a b : String) :
    strContainsSub (a ++ b) a = true := by
  unfold strContainsSub
  rw [String.data_append]
  exact listContainsSub_of_lead _ _ (leadsWith_append a.data b.data)

/-- The empty-output failure message contains the empty-output marker text. -/
theorem emptyOutput_msg_contains (m : String) :
    strContainsSub ("输出文件为空: " ++ m) "输出文件为空" = true := by
  have hsplit : ("输出文件为空: " : String) = "输出文件为空" ++ ": " := rfl
  rw [hsplit, String.append_assoc]
  exact strContainsSub_append_left _ _

/-- The empty-output failure message does not begin with the process-error
marker `转换失败`. -/
theorem emptyOutput_msg_not_process_error (m : String) :
    leadsWith "转换失败".data ("输出文件为空: " ++ m).data = false := rfl

/-- C1: for every run of `convert_all` on a non-empty discovered file list,
`success_count + fail_count` equals the number of discovered input files:
each discovered file contributes to exactly one of the two counters. -/
theorem c1_success_add_fail_eq_discovered (d : Dir) (fenv : String → ConvEnv)
    (h : find_word_files d ≠ []) :
    (convert_all d fenv).1 + (convert_all d fenv).2.1 = (find_word_files d).length := by
  rw [convert_all_eq]
  exact countP_add_countP_not _ _

/-- C1 witness: a concrete one-file run. -/
theorem c1_success_add_fail_eq_discovered_witness :
    find_word_files ⟨true, ["a.docx"]⟩ ≠ [] ∧
    (convert_all ⟨true, ["a.docx"]⟩
        (fun _ => ⟨RunOutcome.completed 0 "", true, 5⟩)).1 +
      (convert_all ⟨true, ["a.docx"]⟩
        (fun _ => ⟨RunOutcome.completed 0 "", true, 5⟩)).2.1 =
      (find_word_files ⟨true, ["a.docx"]⟩).length :=
  ⟨by decide,
   c1_success_add_fail_eq_discovered ⟨true, ["a.docx"]⟩
     (fun _ => ⟨RunOutcome.completed 0 "", true, 5⟩) (by decide)⟩

/-- C3: `convert_file` classifies a task as success exactly when the pandoc
process exits zero and the derived output file exists with size greater than
zero; when the process exits zero but the output is missing or empty, the
result is a failure whose message contains `输出文件为空` and does not begin
with the process-error marker `转换失败`. -/
theorem c3_success_iff_zero_exit_and_nonempty_output (env : ConvEnv) (name : String) :
    ((convert_file env name).1 = true ↔
      (∃ stderr, env.run = RunOutcome.completed 0 stderr) ∧
        env.outExists = true ∧ 0 < env.outSize) ∧
    (∀ stderr, env.run = RunOutcome.completed 0 stderr →
      ¬(env.outExists = true ∧ 0 < env.outSize) →
      (convert_file env name).1 = false ∧
      strContainsSub (convert_file env name).2 "输出文件为空" = true ∧
      leadsWith "转换失败".data (convert_file env name).2.data = false) := by
  obtain ⟨run, oe, os⟩ := env
  cases run with
  | completed rc stderr =>
    by_cases hrc : rc = 0
    · subst hrc
      by_cases hout : oe = true ∧ 0 < os
      · constructor
        · simp [convert_file, hout]
        · intro stderr h hcontra
          exact absurd hout hcontra
      · constructor
        · simp [convert_file, hout]
        · intro stderr h hcontra
          refine ⟨by simp [convert_file, hout], ?_, ?_⟩
          · simpa [convert_file, hout] using
              emptyOutput_msg_contains (pyStem name ++ ".md")
          · simpa [convert_file, hout] using
              emptyOutput_msg_not_process_error (pyStem name ++ ".md")
    · constructor
      · simp [convert_file, hrc]
      · intro stderr' h hcontra
        injection h with h1 h2
        exact absurd h1 hrc
  | timedOut =>
    constructor
    · simp [convert_file]
    · intro stderr h
      exact absurd h (by simp)
  | raised m =>
    constructor
    · simp [convert_file]
    · intro stderr h
      exact absurd h (by simp)

/-- C3 witness: zero exit with a missing output file on a concrete input. -/
theorem c3_success_iff_zero_exit_and_nonempty_output_witness :
    (convert_file ⟨RunOutcome.completed 0 "", false, 0⟩ "report.docx").1 = false ∧
    strContainsSub
      (convert_file ⟨RunOutcome.completed 0 "", false, 0⟩ "report.docx").2
      "输出文件为空" = true :=
  ⟨((c3_success_iff_zero_exit_and_nonempty_output
      ⟨RunOutcome.completed 0 "", false, 0⟩ "report.docx").2 "" rfl (by decide)).1,
   ((c3_success_iff_zero_exit_and_nonempty_output
      ⟨RunOutcome.completed 0 "", false, 0⟩ "report.docx").2 "" rfl (by decide)).2.1⟩

/-- C5: every per-file error during one conversion attempt is caught inside
`convert_file` and becomes a failure result — a 60-second timeout yields the
timeout message, any other exception the generic exception message — and
since `convert_file` is total, a per-file failure never aborts the batch:
every discovered file is still counted as a success or a failure. -/
theorem c5_per_file_errors_caught (env : ConvEnv) (name : String) :
    (env.run = RunOutcome.timedOut →
      convert_file env name = (false, "转换超时（60秒）")) ∧
    (∀ m, env.run = RunOutcome.raised m →
      convert_file env name = (false, "转换异常: " ++ m)) ∧
    (∀ (d : Dir) (fenv : String → ConvEnv),
      (convert_all d fenv).1 + (convert_all d fenv).2.1 =
        (find_word_files d).length) := by
  refine ⟨?_, ?_, ?_⟩
  · intro h
    simp [convert_file, h]
  · intro m h
    simp [convert_file, h]
  · intro d fenv
    rw [convert_all_eq]
    exact countP_add_countP_not _ _

/-- C5 witness: a concrete timed-out conversion. -/
theorem c5_per_file_errors_caught_witness :
    convert_file ⟨RunOutcome.timedOut, false, 0⟩ "a.docx" = (false, "转换超时（60秒）") :=
  (c5_per_file_errors_caught ⟨RunOutcome.timedOut, false, 0⟩ "a.docx").1 rfl

/-- C6: on an existing directory, discovery returns exactly the entries
directly under it whose names end in `.docx`, case-sensitively (a directory
listing holds only the entries directly under the directory, so nothing is
recursed into); the listing `a.docx, b.txt, c.DOCX` yields exactly `a.docx`. -/
theorem c6_discovery_filters_docx (d : Dir) (h : d.exists_ = true) :
    find_word_files d = d.entries.filter spec_matches_docx ∧
    find_word_files ⟨true, ["a.docx", "b.txt", "c.DOCX"]⟩ = ["a.docx"] :=
  ⟨find_word_files_eq_filter d h, by decide⟩

/-- C6 witness: the concrete case-variant directory. -/
theorem c6_discovery_filters_docx_witness :
    find_word_files ⟨true, ["a.docx", "b.txt", "c.DOCX"]⟩ =
      (["a.docx", "b.txt", "c.DOCX"] : List String).filter spec_matches_docx :=
  (c6_discovery_filters_docx ⟨true, ["a.docx", "b.txt", "c.DOCX"]⟩ rfl).1

/-- C7: discovery on a non-existent input directory returns the empty list
(and, being a total function, does not raise), and whenever discovery yields
zero tasks, `convert_all` returns `(0, 0, [])` and a full run performs no
conversion. -/
theorem c7_missing_dir_empty_run (d : Dir) (fenv : String → ConvEnv) (e : MainEnv) :
    (d.exists_ = false → find_word_files d = []) ∧
    (find_word_files d = [] → convert_all d fenv = (0, 0, [])) ∧
    (find_word_files e.dir = [] → ∀ f, Event.convert f ∉ (mainRun e).2) := by
  refine ⟨?_, ?_, ?_⟩
  · intro h
    simp [find_word_files, h]
  · intro h
    simp [convert_all, h]
  · intro h f
    rcases hp : check_pandoc e.probe with pe | b
    · simp [mainRun, hp]
    · cases b
      · simp [mainRun, hp]
      · by_cases hc : e.checkFlag <;> simp [mainRun, hp, hc, h]

/-- C7 witness: a concrete non-existent directory and run. -/
theorem c7_missing_dir_empty_run_witness :
    find_word_files ⟨false, ["a.docx"]⟩ = [] ∧
    convert_all ⟨false, ["a.docx"]⟩ (fun _ => ⟨RunOutcome.timedOut, false, 0⟩) =
      (0, 0, []) :=
  ⟨(c7_missing_dir_empty_run ⟨false, ["a.docx"]⟩
      (fun _ => ⟨RunOutcome.timedOut, false, 0⟩)
      ⟨ProbeOutcome.fileNotFound, false, ⟨false, []⟩,
        fun _ => ⟨RunOutcome.timedOut, false, 0⟩⟩).1 rfl,
   (c7_missing_dir_empty_run ⟨false, ["a.docx"]⟩
      (fun _ => ⟨RunOutcome.timedOut, false, 0⟩)
      ⟨ProbeOutcome.fileNotFound, false, ⟨false, []⟩,
        fun _ => ⟨RunOutcome.timedOut, false, 0⟩⟩).2.1 (by decide)⟩

/-- C9: in every `convert_all` run the failure-message list has exactly
`fail_count` entries and equals, in processing order, the discovered files
mapped through `failEntry`: each failed file contributes exactly one
`"<filename>: <message>"` entry and successful files contribute none. -/
theorem c9_error_list_matches_failures (d : Dir) (fenv : String → ConvEnv) :
    (convert_all d fenv).2.2.length = (convert_all d fenv).2.1 ∧
    (convert_all d fenv).2.2 = (find_word_files d).filterMap (failEntry fenv) := by
  rw [convert_all_eq]
  refine ⟨?_, rfl⟩
  induction find_word_files d with
  | nil => simp
  | cons w rest ih =>
    rw [List.filterMap_cons, List.countP_cons]
    by_cases h : (convert_file (fenv w) w).1 = true <;>
      simp [failEntry, h, ih]

/-- C2: the process exit code is 1 when the converter tool is unavailable
(`check_pandoc` returned `False`), with no conversion attempted; 0 after a
`--check` run once the availability check passed; otherwise, after a full
batch run, 0 exactly when `fail_count = 0` and 1 exactly when at least one
conversion failed. -/
theorem c2_exit_codes (e : MainEnv) :
    (check_pandoc e.probe = Except.ok false →
      (mainRun e).1 = 1 ∧ ∀ f, Event.convert f ∉ (mainRun e).2) ∧
    (check_pandoc e.probe = Except.ok true → e.checkFlag = true →
      (mainRun e).1 = 0) ∧
    (check_pandoc e.probe = Except.ok true → e.checkFlag = false →
      (((convert_all e.dir e.fileEnv).2.1 = 0 → (mainRun e).1 = 0) ∧
       ((convert_all e.dir e.fileEnv).2.1 ≠ 0 → (mainRun e).1 = 1))) := by
  refine ⟨?_, ?_, ?_⟩
  · intro h
    refine ⟨by simp [mainRun, h], fun f => by simp [mainRun, h]⟩
  · intro h hc
    simp [mainRun, h, hc]
  · intro h hc
    constructor
    · intro hz
      simp [mainRun, h, hc, hz]
    · intro hz
      simp [mainRun, h, hc, hz]

/-- C2 witness: pandoc missing on a concrete environment. -/
theorem c2_exit_codes_witness :
    (mainRun ⟨ProbeOutcome.fileNotFound, false, ⟨true, ["a.docx"]⟩,
        fun _ => ⟨RunOutcome.timedOut, false, 0⟩⟩).1 = 1 :=
  ((c2_exit_codes ⟨ProbeOutcome.fileNotFound, false, ⟨true, ["a.docx"]⟩,
      fun _ => ⟨RunOutcome.timedOut, false, 0⟩⟩).1 rfl).1

/-- C10: every run of `main` — whatever the probe outcome, the `--check`
flag, and the conversion environments, so including `--check` runs and runs
that exit 1 because pandoc is missing — begins by creating the output
directory with `parents=True, exist_ok=True` (recursive creation, silent
when it already exists), before the tool-availability probe, discovery, or
any conversion. -/
theorem c10_mkdir_always_first (e : MainEnv) :
    ∃ rest, (mainRun e).2 =
      Event.mkdirOutput true true :: Event.probePandoc :: rest := by
  rcases hp : check_pandoc e.probe with pe | b
  · exact ⟨[], by simp [mainRun, hp]⟩
  · cases b
    · exact ⟨[], by simp [mainRun, hp]⟩
    · by_cases hc : e.checkFlag
      · exact ⟨[Event.discover], by simp [mainRun, hp, hc]⟩
      · exact ⟨Event.discover :: (find_word_files e.dir).map Event.convert,
          by simp [mainRun, hp, hc]⟩

/-- C4 counterexample: the claim says the non-zero-exit failure message
contains the captured standard-error text verbatim; with captured stderr
`"bad format\n"` (a trailing newline, as a process error stream typically
ends) the message is `"转换失败: bad format"` — the stripped text — and does
not contain the verbatim captured text. -/
theorem c4_counterexample_stderr_not_verbatim :
    (convert_file ⟨RunOutcome.completed 1 "bad format\n", false, 0⟩ "report.docx").1
      = false ∧
    (convert_file ⟨RunOutcome.completed 1 "bad format\n", false, 0⟩ "report.docx").2
      = "转换失败: bad format" ∧
    strContainsSub
      (convert_file ⟨RunOutcome.completed 1 "bad format\n", false, 0⟩ "report.docx").2
      "bad format\n" = false := by decide

/-- C4 amended: when the pandoc process exits non-zero, `convert_file`
returns a failure whose message is `转换失败: ` followed by the captured
standard-error text stripped of leading and trailing whitespace — hence it
contains the stripped stderr text — or by `未知错误` when stderr is the
empty string; and `convert_all` records the failure as
`"<filename>: 转换失败: <stripped stderr>"`: for stderr `"bad format"` on
input `report.docx` the run returns
`(0, 1, ["report.docx: 转换失败: bad format"])`. -/
theorem c4_amended_stripped_stderr :
    (∀ (env : ConvEnv) (name : String) (rc : Int) (stderr : String),
      env.run = RunOutcome.completed rc stderr → rc ≠ 0 →
        (convert_file env name).1 = false ∧
        (convert_file env name).2 =
          "转换失败: " ++ (if stderr ≠ "" then pyStrip stderr else "未知错误") ∧
        (stderr ≠ "" →
          strContainsSub (convert_file env name).2 (pyStrip stderr) = true)) ∧
    convert_all ⟨true, ["report.docx"]⟩
        (fun _ => ⟨RunOutcome.completed 1 "bad format", false, 0⟩) =
      (0, 1, ["report.docx: 转换失败: bad format"]) := by
  constructor
  · intro env name rc stderr h hrc
    refine ⟨by simp [convert_file, h, hrc], by simp [convert_file, h, hrc], ?_⟩
    intro hne
    have hmsg : (convert_file env name).2 = "转换失败: " ++ pyStrip stderr := by
      simp [convert_file, h, hrc, hne]
    rw [hmsg]
    exact strContainsSub_append_right _ _
  · decide

/-- C4 witness: the concrete non-zero exit with stderr `"bad format"`. -/
theorem c4_amended_stripped_stderr_witness :
    (convert_file ⟨RunOutcome.completed 1 "bad format", false, 0⟩ "report.docx").1
      = false ∧
    (convert_file ⟨RunOutcome.completed 1 "bad format", false, 0⟩ "report.docx").2 =
      "转换失败: " ++
        (if ("bad format" : String) ≠ "" then pyStrip "bad format" else "未知错误") :=
  ⟨(c4_amended_stripped_stderr.1 ⟨RunOutcome.completed 1 "bad format", false, 0⟩
      "report.docx" 1 "bad format" rfl (by decide)).1,
   (c4_amended_stripped_stderr.1 ⟨RunOutcome.completed 1 "bad format", false, 0⟩
      "report.docx" 1 "bad format" rfl (by decide)).2.1⟩

/-- C8 counterexample: the claim says that in every failure of the probe
invocation other than success `check_pandoc` returns `False` rather than
raising; but the source catches only `FileNotFoundError` and
`TimeoutExpired`, so a launch failure such as `PermissionError` (binary
present but not executable) propagates as an uncaught exception. -/
theorem c8_counterexample_other_launch_failure_raises :
    check_pandoc (ProbeOutcome.raised "[Errno 13] Permission denied") =
      Except.error (PyExc.other "[Errno 13] Permission denied") := rfl

/-- C8 amended: `check_pandoc` returns `True` only if the probe process
completes with exit status zero (and its stdout has at least two
whitespace-separated tokens, for the version print); a missing binary and a
timeout return `False`, as does a non-zero exit status; but a zero exit with
fewer than two stdout tokens raises `IndexError`, and any invocation
failure other than `FileNotFoundError`/`TimeoutExpired` propagates as an
uncaught exception. -/
theorem c8_amended_probe_classification (p : ProbeOutcome) :
    (check_pandoc p = Except.ok true →
      ∃ stdout, p = ProbeOutcome.completed 0 stdout ∧ 2 ≤ (pySplit stdout).length) ∧
    check_pandoc ProbeOutcome.fileNotFound = Except.ok false ∧
    check_pandoc ProbeOutcome.timedOut = Except.ok false ∧
    (∀ (rc : Int) (stdout : String), rc ≠ 0 →
      check_pandoc (ProbeOutcome.completed rc stdout) = Except.ok false) ∧
    (∀ stdout : String, (pySplit stdout).length < 2 →
      check_pandoc (ProbeOutcome.completed 0 stdout) =
        Except.error PyExc.indexError) ∧
    (∀ m : String, check_pandoc (ProbeOutcome.raised m) =
      Except.error (PyExc.other m)) := by
  refine ⟨?_, rfl, rfl, ?_, ?_, fun m => rfl⟩
  · intro h
    cases p with
    | completed rc stdout =>
      by_cases hrc : rc = 0
      · subst hrc
        by_cases hlen : 2 ≤ (pySplit stdout).length
        · exact ⟨stdout, rfl, hlen⟩
        · simp [check_pandoc, hlen] at h
      · simp [check_pandoc, hrc] at h
    | fileNotFound => simp [check_pandoc] at h
    | timedOut => simp [check_pandoc] at h
    | raised m => simp [check_pandoc] at h
  · intro rc stdout hrc
    simp [check_pandoc, hrc]
  · intro stdout hlen
    have hn : ¬2 ≤ (pySplit stdout).length := by omega
    simp [check_pandoc, hn]

/-- C8 witness: a concrete non-zero probe exit returns `False`. -/
theorem c8_amended_probe_classification_witness :
    check_pandoc (ProbeOutcome.completed 1 "") = Except.ok false :=
  (c8_amended_probe_classification
    (ProbeOutcome.completed 1 "")).2.2.2.1 1 "" (by decide)
